import Mathlib

/-!
Shallow embedding of the real-time WebSocket subscription session of the
`coinbase-advanced` Rust SDK, together with proofs of the specification
claims about it.

The embedded code lives in `src/websocket/channels.rs` (channel catalog)
and `src/websocket/client.rs` (subscription registry, subscribe and
unsubscribe flow, reconnect loop with exponential backoff, and the
multiplexed inbound message stream).  Mutable state (`&mut self`, channel
sinks) is threaded explicitly; ambient effects of a single operation
(`SystemTime::now`, JWT minting via `ring`, the outcome of `sink.send`)
are packaged in an explicit `Env` record passed to the operation, since
their internals are external-library behaviour.
-/

namespace Coinbase

/-- Endpoint types for WebSocket connections
(`EndpointType` in `src/websocket/channels.rs`). -/
inductive EndpointType where
  | Public
  | User
deriving DecidableEq, Repr

/-- Debug rendering of an endpoint, as Rust's `{:?}` formats it. -/
def EndpointType.debugStr : EndpointType → String
  | .Public => "Public"
  | .User => "User"

/-- WebSocket channels that can be subscribed to
(`Channel` in `src/websocket/channels.rs`). -/
inductive Channel where
  | Heartbeats
  | Status
  | Ticker (product_ids : List String)
  | TickerBatch (product_ids : List String)
  | Level2 (product_ids : List String)
  | Candles (product_ids : List String)
  | MarketTrades (product_ids : List String)
  | User
  | FuturesBalanceSummary
deriving DecidableEq, Repr

/-- The channel name as a string (`Channel::name`). -/
def Channel.name : Channel → String
  | .Heartbeats => "heartbeats"
  | .Status => "status"
  | .Ticker _ => "ticker"
  | .TickerBatch _ => "ticker_batch"
  | .Level2 _ => "level2"
  | .Candles _ => "candles"
  | .MarketTrades _ => "market_trades"
  | .User => "user"
  | .FuturesBalanceSummary => "futures_balance_summary"

/-- The product IDs for a channel, if applicable (`Channel::product_ids`). -/
def Channel.product_ids : Channel → List String
  | .Ticker product_ids
  | .TickerBatch product_ids
  | .Level2 product_ids
  | .Candles product_ids
  | .MarketTrades product_ids => product_ids
  | _ => []

/-- The endpoint type for a channel (`Channel::endpoint_type`). -/
def Channel.endpoint_type : Channel → EndpointType
  | .User | .FuturesBalanceSummary => EndpointType.User
  | _ => EndpointType.Public

/-- Whether a channel requires authentication (`Channel::requires_auth`). -/
def Channel.requires_auth : Channel → Bool
  | .User | .FuturesBalanceSummary => true
  | _ => false

/-- Channel name used for serialization (`ChannelName` in
`src/websocket/channels.rs`). -/
inductive ChannelName where
  | Heartbeats
  | Status
  | Ticker
  | TickerBatch
  | Level2
  | Candles
  | MarketTrades
  | User
  | FuturesBalanceSummary
  | Subscriptions
deriving DecidableEq, Repr

/-- Conversion from a channel to its wire name
(`impl From<&Channel> for ChannelName`). -/
def ChannelName.ofChannel : Channel → ChannelName
  | .Heartbeats => .Heartbeats
  | .Status => .Status
  | .Ticker _ => .Ticker
  | .TickerBatch _ => .TickerBatch
  | .Level2 _ => .Level2
  | .Candles _ => .Candles
  | .MarketTrades _ => .MarketTrades
  | .User => .User
  | .FuturesBalanceSummary => .FuturesBalanceSummary

/-- Semantic model of `HashMap<ChannelName, Vec<String>>`: a finite map
presented as a function from keys to optional values. -/
def ChanMap : Type := ChannelName → Option (List String)

/-- Point update of a `ChanMap` (covers `HashMap::insert` via `some` and
`HashMap::remove` via `none`). -/
def mapUpdate (m : ChanMap) (k : ChannelName) (v : Option (List String)) : ChanMap :=
  fun q => if q = k then v else m q

/-- Tracks current subscriptions for reconnection
(`struct Subscriptions` in `src/websocket/client.rs`). -/
structure Subscriptions where
  public : ChanMap
  user : ChanMap

/-- `Subscriptions::new` / `Default`: both maps empty. -/
def Subscriptions.new : Subscriptions :=
  { public := fun _ => none, user := fun _ => none }

/-- `Subscriptions::add`: `map.entry(name).or_default().extend(product_ids)`
on the map selected by the channel's endpoint type.  `or_default` is the
`getD []`, `extend` is list append. -/
def Subscriptions.add (s : Subscriptions) (c : Channel) : Subscriptions :=
  let name := ChannelName.ofChannel c
  let pids := c.product_ids
  match c.endpoint_type with
  | .Public =>
      { s with public := mapUpdate s.public name (some ((s.public name).getD [] ++ pids)) }
  | .User =>
      { s with user := mapUpdate s.user name (some ((s.user name).getD [] ++ pids)) }

/-- `Subscriptions::remove`: on the map selected by the channel's endpoint
type, `if let Some(ids) = map.get_mut(&name)` retain the ids not contained
in the channel's product ids, and drop the entry when the remainder is
empty; absent entries are left untouched. -/
def Subscriptions.remove (s : Subscriptions) (c : Channel) : Subscriptions :=
  let name := ChannelName.ofChannel c
  let pids := c.product_ids
  match c.endpoint_type with
  | .Public =>
      match s.public name with
      | none => s
      | some ids =>
          if (ids.filter (fun id => !(pids.contains id))).isEmpty then
            { s with public := mapUpdate s.public name none }
          else { s with public := mapUpdate s.public name (some (ids.filter (fun id => !(pids.contains id)))) }
  | .User =>
      match s.user name with
      | none => s
      | some ids =>
          if (ids.filter (fun id => !(pids.contains id))).isEmpty then
            { s with user := mapUpdate s.user name none }
          else { s with user := mapUpdate s.user name (some (ids.filter (fun id => !(pids.contains id)))) }

/-- The map of a `Subscriptions` value for one endpoint. -/
def Subscriptions.mapOf (s : Subscriptions) : EndpointType → ChanMap
  | .Public => s.public
  | .User => s.user

/-- The registry entry matching a channel's `(name, endpoint)` key. -/
def Subscriptions.lookupOf (s : Subscriptions) (c : Channel) : Option (List String) :=
  s.mapOf c.endpoint_type (ChannelName.ofChannel c)

/-- Credentials for authenticating with the API
(`Credentials` in `src/credentials.rs`; the secrecy wrapper around the
private key is representation-only). -/
structure Credentials where
  api_key : String
  private_key : String
deriving DecidableEq, Repr

/-- Error type of the crate (`Error` in `src/error.rs`), restricted to the
variants the WebSocket session produces; each carries its message string. -/
inductive Error where
  | Config (msg : String)
  | Jwt (msg : String)
  | WebSocket (msg : String)
deriving DecidableEq, Repr

/-- Message of the guard error in `WebSocketClient::subscribe_one`:
`format!("Channel {:?} requires authentication", channel.name())`
(`{:?}` on a `&str` quotes it). -/
def authRequiredMsg (name : String) : String :=
  "Channel \"" ++ name ++ "\" requires authentication"

/-- Message of the sink-absent error in `WebSocketClient::send_message`. -/
def notConnectedMsg (ep : EndpointType) : String :=
  ep.debugStr ++ " WebSocket not connected. Call connect() first."

/-- Message of a failed `sink.send` in `WebSocketClient::send_message`. -/
def sendFailedMsg (e : String) : String :=
  "Failed to send message: " ++ e

/-- Message of a failed wall-clock read in
`WebSocketClient::build_subscription_message`. -/
def timestampFailedMsg (e : String) : String :=
  "Failed to get timestamp: " ++ e

/-- Message of the guard error in `WebSocketClient::generate_jwt`. -/
def credentialsRequiredMsg : String :=
  "Credentials required for authenticated channels"

/-- Message of a decode failure in `process_ws_message`. -/
def parseFailedMsg (e raw : String) : String :=
  "Failed to parse message: " ++ e ++ ". Raw: " ++ raw

/-- Message of a transport error surfaced by `MessageStream::poll_next`. -/
def wsErrorMsg (e : String) : String :=
  "WebSocket error: " ++ e

/-- Message yielded for a `Close` frame in `process_ws_message`; the
argument is the debug rendering of the optional close frame. -/
def closedMsg (frame : Option String) : String :=
  "WebSocket closed: " ++ (match frame with
    | none => "None"
    | some f => "Some(" ++ f ++ ")")

/-- Message of `WebSocketClient::reconnect` when `auto_reconnect` is off. -/
def reconnectDisabledMsg : String :=
  "Auto-reconnect is disabled"

/-- Message of `WebSocketClient::reconnect` after exhausting the budget. -/
def reconnectExhaustedMsg (n : Nat) : String :=
  "Failed to reconnect after " ++ toString n ++ " attempts"

/-- Ambient effects consumed by one subscribe/unsubscribe operation on one
channel: the wall clock read (`SystemTime::now().duration_since(UNIX_EPOCH)`,
in whole seconds), the outcome of minting a JWT (`generate_ws_jwt`, whose
time/nonce/ECDSA internals are external-library behaviour), and the outcome
of `sink.send` on the endpoint's sink.  Errors carry the source's display
string. -/
structure Env where
  now : Except String Nat
  jwt : Except String String
  send : Except String Unit

/-- Configuration part of `WebSocketClient` (set once by the builder,
never mutated): credentials, auto-reconnect flag, retry budget. -/
structure ClientCfg where
  credentials : Option Credentials
  auto_reconnect : Bool
  max_retries : Nat
deriving DecidableEq, Repr

/-- Builder for creating a WebSocket client
(`WebSocketClientBuilder` in `src/websocket/client.rs`). -/
structure WebSocketClientBuilder where
  credentials : Option Credentials := none
  auto_reconnect : Bool := false
  max_retries : Nat := 0
deriving DecidableEq, Repr

/-- `WebSocketClientBuilder::new` (the `Default` value). -/
def WebSocketClientBuilder.new : WebSocketClientBuilder := {}

/-- `WebSocketClientBuilder::credentials`. -/
def WebSocketClientBuilder.withCredentials (b : WebSocketClientBuilder)
    (c : Credentials) : WebSocketClientBuilder :=
  { b with credentials := some c }

/-- `WebSocketClientBuilder::auto_reconnect`: enables the flag and defaults
`max_retries` to 10 when it was 0. -/
def WebSocketClientBuilder.withAutoReconnect (b : WebSocketClientBuilder)
    (enable : Bool) : WebSocketClientBuilder :=
  let b := { b with auto_reconnect := enable }
  if enable && b.max_retries == 0 then { b with max_retries := 10 } else b

/-- `WebSocketClientBuilder::max_retries`. -/
def WebSocketClientBuilder.withMaxRetries (b : WebSocketClientBuilder)
    (n : Nat) : WebSocketClientBuilder :=
  { b with max_retries := n }

/-- `WebSocketClientBuilder::build`: the configuration part of the built
client (the sinks start out `None` and the registry empty, see
`ClientState.initial`). -/
def WebSocketClientBuilder.build (b : WebSocketClientBuilder) : ClientCfg :=
  { credentials := b.credentials
    auto_reconnect := b.auto_reconnect
    max_retries := b.max_retries }

/-- A subscription/unsubscription control message
(`struct SubscriptionMessage` in `src/websocket/client.rs`).  In the JSON
serialization, `jwt` and `timestamp` appear exactly when the `Option` is
`some` and `product_ids` exactly when non-empty
(`skip_serializing_if` attributes). -/
structure SubscriptionMessage where
  type : String
  product_ids : List String
  channel : ChannelName
  jwt : Option String
  timestamp : Option String
deriving DecidableEq, Repr

/-- Mutable state of `WebSocketClient`: the two optional sinks (modelled by
the list of control frames accepted so far, `none` = not connected) and the
subscription registry. -/
structure ClientState where
  public_sink : Option (List SubscriptionMessage)
  user_sink : Option (List SubscriptionMessage)
  subscriptions : Subscriptions

/-- The state of a freshly built client: no sinks, empty registry. -/
def ClientState.initial : ClientState :=
  { public_sink := none, user_sink := none, subscriptions := Subscriptions.new }

/-- `WebSocketClient::generate_jwt`: error when no credentials are
configured, otherwise the outcome of `generate_ws_jwt` (its failures come
back as `Error::Jwt`). -/
def generate_jwt (cfg : ClientCfg) (env : Env) : Except Error String :=
  match cfg.credentials with
  | none => .error (.WebSocket credentialsRequiredMsg)
  | some _ =>
      match env.jwt with
      | .ok tok => .ok tok
      | .error e => .error (.Jwt e)

/-- `WebSocketClient::build_subscription_message`: for an auth-requiring
channel mint a fresh JWT (carried, no timestamp); otherwise stamp the
current wall-clock seconds (carried, no JWT). -/
def build_subscription_message (cfg : ClientCfg) (env : Env) (channel : Channel)
    (action : String) : Except Error SubscriptionMessage :=
  let channel_name := ChannelName.ofChannel channel
  let product_ids := channel.product_ids
  if channel.requires_auth then
    match generate_jwt cfg env with
    | .error e => .error e
    | .ok jwt =>
        .ok { type := action, product_ids := product_ids, channel := channel_name,
              jwt := some jwt, timestamp := none }
  else
    match env.now with
    | .error e => .error (.WebSocket (timestampFailedMsg e))
    | .ok secs =>
        .ok { type := action, product_ids := product_ids, channel := channel_name,
              jwt := none, timestamp := some (toString secs) }

/-- `WebSocketClient::send_message`: pick the sink for the endpoint; error
if it is absent; otherwise the frame is accepted or the send fails per the
environment. -/
def send_message (st : ClientState) (endpoint : EndpointType) (msg : SubscriptionMessage)
    (env : Env) : Except Error ClientState :=
  match endpoint with
  | .Public =>
      match st.public_sink with
      | none => .error (.WebSocket (notConnectedMsg .Public))
      | some sent =>
          match env.send with
          | .ok _ => .ok { st with public_sink := some (sent ++ [msg]) }
          | .error e => .error (.WebSocket (sendFailedMsg e))
  | .User =>
      match st.user_sink with
      | none => .error (.WebSocket (notConnectedMsg .User))
      | some sent =>
          match env.send with
          | .ok _ => .ok { st with user_sink := some (sent ++ [msg]) }
          | .error e => .error (.WebSocket (sendFailedMsg e))

/-- `WebSocketClient::subscribe_one`: guard auth-requiring channels against
a missing credential configuration, build the control frame, send it, and
only then record the channel in the registry. -/
def subscribe_one (cfg : ClientCfg) (env : Env) (st : ClientState) (channel : Channel) :
    Except Error Unit × ClientState :=
  let endpoint := channel.endpoint_type
  if channel.requires_auth && cfg.credentials.isNone then
    (.error (.WebSocket (authRequiredMsg channel.name)), st)
  else
    match build_subscription_message cfg env channel "subscribe" with
    | .error e => (.error e, st)
    | .ok msg =>
        match send_message st endpoint msg env with
        | .error e => (.error e, st)
        | .ok st2 =>
            (.ok (), { st2 with subscriptions := st2.subscriptions.add channel })

/-- `WebSocketClient::unsubscribe_one`: build the control frame, send it,
and only then remove the channel from the registry. -/
def unsubscribe_one (cfg : ClientCfg) (env : Env) (st : ClientState) (channel : Channel) :
    Except Error Unit × ClientState :=
  let endpoint := channel.endpoint_type
  match build_subscription_message cfg env channel "unsubscribe" with
  | .error e => (.error e, st)
  | .ok msg =>
      match send_message st endpoint msg env with
      | .error e => (.error e, st)
      | .ok st2 =>
          (.ok (), { st2 with subscriptions := st2.subscriptions.remove channel })

/-- The `for channel in channels { self.step(channel).await? }` loop shared
by `WebSocketClient::subscribe` and `WebSocketClient::unsubscribe`: the
per-channel step is applied in list order and the first error aborts the
remainder.  The index argument selects each step's ambient environment. -/
def runBatch (step : Nat → ClientState → Channel → Except Error Unit × ClientState) :
    Nat → ClientState → List Channel → Except Error Unit × ClientState
  | _, st, [] => (.ok (), st)
  | k, st, c :: cs =>
      match step k st c with
      | (.ok _, st2) => runBatch step (k + 1) st2 cs
      | (.error e, st2) => (.error e, st2)

/-- `WebSocketClient::subscribe` over a list of channels; `envs k` is the
ambient environment of the `k`-th iteration. -/
def subscribe (cfg : ClientCfg) (envs : Nat → Env) (st : ClientState)
    (channels : List Channel) : Except Error Unit × ClientState :=
  runBatch (fun k s c => subscribe_one cfg (envs k) s c) 0 st channels

/-- `WebSocketClient::unsubscribe` over a list of channels. -/
def unsubscribe (cfg : ClientCfg) (envs : Nat → Env) (st : ClientState)
    (channels : List Channel) : Except Error Unit × ClientState :=
  runBatch (fun k s c => unsubscribe_one cfg (envs k) s c) 0 st channels

/-- The `while retry_count < max_retries` loop of
`WebSocketClient::reconnect`: each iteration sleeps `delay` seconds, then
tries `attempt_reconnect` (outcome given by the oracle `attempt`, indexed
by `retry_count`); a failure increments the count and doubles the delay,
capping it at 60 seconds.  The first component reports whether an attempt
succeeded; the second lists the delays slept, in order.  The fuel is the
number of loop iterations left, `max_retries - retry_count`. -/
def reconnectLoop (attempt : Nat → Bool) : Nat → Nat → Nat → Bool × List Nat
  | 0, _, _ => (false, [])
  | fuel + 1, retry_count, delay =>
      if attempt retry_count then (true, [delay])
      else
        let r := reconnectLoop attempt fuel (retry_count + 1) (min (delay * 2) 60)
        (r.1, delay :: r.2)

/-- `WebSocketClient::reconnect`: refuse when auto-reconnect is disabled,
otherwise run the retry loop from count 0 and delay 1 second; on a
successful attempt the outcome is `resubscribe()`'s (`resub`), on
exhaustion a fatal error.  The second component lists the backoff delays
slept, in seconds. -/
def reconnect (cfg : ClientCfg) (attempt : Nat → Bool) (resub : Except Error Unit) :
    Except Error Unit × List Nat :=
  if !cfg.auto_reconnect then (.error (.WebSocket reconnectDisabledMsg), [])
  else
    let r := reconnectLoop attempt cfg.max_retries 0 1
    if r.1 then (resub, r.2)
    else (.error (.WebSocket (reconnectExhaustedMsg cfg.max_retries)), r.2)

/-- Events carried by an inbound frame (`Events` in `src/ws/messages.rs`);
the per-event payload bodies are mechanical schema plumbing and are
abstracted to their raw JSON text. -/
inductive Events where
  | Status (events : List String)
  | Candles (events : List String)
  | Ticker (events : List String)
  | Level2 (events : List String)
  | User (events : List String)
  | MarketTrades (events : List String)
  | Heartbeats (events : List String)
  | Subscriptions (events : List String)
  | FuturesBalanceSummary (events : List String)
deriving DecidableEq, Repr

/-- A message received from the WebSocket (`Message` in
`src/ws/messages.rs`). -/
structure Message where
  channel : ChannelName
  client_id : String
  timestamp : String
  sequence_num : Nat
  events : Events
deriving DecidableEq, Repr

/-- Inbound transport frame (`tungstenite::Message`); payloads of the
variants the client ignores are abstracted, and a `Close` frame carries
the debug rendering of its optional close frame. -/
inductive WsMessage where
  | text (payload : String)
  | binary (payload : List Nat)
  | ping (payload : List Nat)
  | pong (payload : List Nat)
  | close (frame : Option String)
  | frame
deriving DecidableEq, Repr

/-- `process_ws_message`, parameterised by the serde-derived decoder of
`Message` (`decode` stands for `serde_json::from_str::<Message>`; an error
carries serde's display string): a `Text` frame yields its decode result,
a `Close` frame yields an error item, everything else yields no item. -/
def process_ws_message (decode : String → Except String Message) :
    WsMessage → Option (Except Error Message)
  | .text payload =>
      some (match decode payload with
        | .ok m => .ok m
        | .error e => .error (.WebSocket (parseFailedMsg e payload)))
  | .close frame => some (.error (.WebSocket (closedMsg frame)))
  | _ => none

/-- One outcome of polling an underlying endpoint socket stream
(`Poll<Option<Result<tungstenite::Message, Error>>>`): a frame, a
transport error (with its display string), end of stream, or pending. -/
inductive PollR where
  | readyOk (msg : WsMessage)
  | readyErr (e : String)
  | readyNone
  | pending
deriving DecidableEq, Repr

/-- State of `MessageStream`: each endpoint's source is either gone
(`none`) or present with the script of outcomes its successive polls will
produce (`[]` = pending from now on). -/
structure MessageStream where
  public_stream : Option (List PollR)
  user_stream : Option (List PollR)
deriving DecidableEq, Repr

/-- Decidable equality for `Except` values, used on stream items. -/
instance {ε α : Type} [DecidableEq ε] [DecidableEq α] : DecidableEq (Except ε α) := fun a b =>
  match a, b with
  | .ok x, .ok y => if h : x = y then .isTrue (by rw [h]) else .isFalse (by simp [h])
  | .error x, .error y => if h : x = y then .isTrue (by rw [h]) else .isFalse (by simp [h])
  | .ok _, .error _ => .isFalse (by simp)
  | .error _, .ok _ => .isFalse (by simp)

/-- Result of one `MessageStream::poll_next` call:
`Poll::Ready(Some(item))`, `Poll::Ready(None)` or `Poll::Pending`. -/
inductive PollNextR where
  | item (x : Except Error Message)
  | done
  | pending
deriving DecidableEq, Repr

/-- The source-polling block `poll_next` runs for each endpoint: poll the
underlying socket once; a frame is put through `process_ws_message` (and
produces an item or not), a transport error produces an error item, end
of stream removes the source (`none` in the second component), pending
produces nothing. -/
def pollSide (decode : String → Except String Message) :
    List PollR → Option (Except Error Message) × Option (List PollR)
  | [] => (none, some [])
  | .readyOk msg :: rest =>
      match process_ws_message decode msg with
      | some it => (some it, some rest)
      | none => (none, some rest)
  | .readyErr e :: rest => (some (.error (.WebSocket (wsErrorMsg e))), some rest)
  | .readyNone :: _ => (none, none)
  | .pending :: rest => (none, some rest)

/-- The public half of `MessageStream::poll_next`. -/
def pollPublic (decode : String → Except String Message) (s : MessageStream) :
    Option (Except Error Message) × MessageStream :=
  match s.public_stream with
  | none => (none, s)
  | some st =>
      let r := pollSide decode st
      (r.1, { s with public_stream := r.2 })

/-- The user half of `MessageStream::poll_next`. -/
def pollUser (decode : String → Except String Message) (s : MessageStream) :
    Option (Except Error Message) × MessageStream :=
  match s.user_stream with
  | none => (none, s)
  | some st =>
      let r := pollSide decode st
      (r.1, { s with user_stream := r.2 })

/-- `MessageStream::poll_next`: try the public source, then the user
source; return the first item produced; with no item, the stream is done
exactly when both sources are gone, else pending. -/
def MessageStream.poll_next (decode : String → Except String Message)
    (s : MessageStream) : PollNextR × MessageStream :=
  match pollPublic decode s with
  | (some it, s1) => (.item it, s1)
  | (none, s1) =>
      match pollUser decode s1 with
      | (some it, s2) => (.item it, s2)
      | (none, s2) =>
          if s2.public_stream.isNone && s2.user_stream.isNone then (.done, s2)
          else (.pending, s2)

/-- Total number of control frames accepted by the two sinks. -/
def sentCount (st : ClientState) : Nat :=
  (st.public_sink.getD []).length + (st.user_sink.getD []).length

/-! ### Helper lemmas -/

/-- Two registries with equal maps are equal. -/
theorem Subscriptions.eq_of_maps (x y : Subscriptions) (h1 : x.public = y.public)
    (h2 : x.user = y.user) : x = y := by
  cases x; cases y; cases h1; cases h2; rfl

/-- The endpoint map `add` operates on, pointwise: the channel's key gets
the old entry (defaulting to the empty list) extended with the channel's
product ids, other keys are untouched. -/
theorem Subscriptions.add_mapOf (s : Subscriptions) (c : Channel) (k : ChannelName) :
    (s.add c).mapOf c.endpoint_type k =
      if k = ChannelName.ofChannel c then
        some ((s.mapOf c.endpoint_type (ChannelName.ofChannel c)).getD [] ++ c.product_ids)
      else s.mapOf c.endpoint_type k := by
  cases hep : c.endpoint_type <;>
    simp only [Subscriptions.add, hep, Subscriptions.mapOf, mapUpdate]

/-- `add` leaves the other endpoint's map untouched. -/
theorem Subscriptions.add_mapOf_other (s : Subscriptions) (c : Channel) (ep : EndpointType)
    (h : ep ≠ c.endpoint_type) : (s.add c).mapOf ep = s.mapOf ep := by
  cases hep : c.endpoint_type <;> cases ep <;>
    simp_all [Subscriptions.add, Subscriptions.mapOf]

/-- The endpoint map `remove` operates on, pointwise: at the channel's key
the retained ids (those not among the channel's product ids) survive when
non-empty and the entry is dropped otherwise; other keys are untouched. -/
theorem Subscriptions.remove_mapOf (s : Subscriptions) (c : Channel) (k : ChannelName) :
    (s.remove c).mapOf c.endpoint_type k =
      if k = ChannelName.ofChannel c then
        match s.mapOf c.endpoint_type (ChannelName.ofChannel c) with
        | none => none
        | some ids =>
            if (ids.filter (fun id => !(c.product_ids.contains id))).isEmpty then none
            else some (ids.filter (fun id => !(c.product_ids.contains id)))
      else s.mapOf c.endpoint_type k := by
  cases hep : c.endpoint_type
  · cases hl : s.public (ChannelName.ofChannel c) <;>
      simp only [Subscriptions.remove, hep, Subscriptions.mapOf, hl]
    · by_cases hk : k = ChannelName.ofChannel c <;> simp [hk, hl]
    · split <;> rename_i hkeep <;>
        by_cases hk : k = ChannelName.ofChannel c <;>
        simp [mapUpdate, hk, hl, hkeep]
  · cases hl : s.user (ChannelName.ofChannel c) <;>
      simp only [Subscriptions.remove, hep, Subscriptions.mapOf, hl]
    · by_cases hk : k = ChannelName.ofChannel c <;> simp [hk, hl]
    · split <;> rename_i hkeep <;>
        by_cases hk : k = ChannelName.ofChannel c <;>
        simp [mapUpdate, hk, hl, hkeep]

/-- `remove` with a `Public`-endpoint channel leaves the user map alone. -/
theorem Subscriptions.remove_user_eq (s : Subscriptions) (c : Channel)
    (hep : c.endpoint_type = .Public) : (s.remove c).user = s.user := by
  simp only [Subscriptions.remove, hep]
  cases s.public (ChannelName.ofChannel c)
  · rfl
  · dsimp only; split <;> rfl

/-- `remove` with a `User`-endpoint channel leaves the public map alone. -/
theorem Subscriptions.remove_public_eq (s : Subscriptions) (c : Channel)
    (hep : c.endpoint_type = .User) : (s.remove c).public = s.public := by
  simp only [Subscriptions.remove, hep]
  cases s.user (ChannelName.ofChannel c)
  · rfl
  · dsimp only; split <;> rfl

/-- `remove` leaves the other endpoint's map untouched. -/
theorem Subscriptions.remove_mapOf_other (s : Subscriptions) (c : Channel) (ep : EndpointType)
    (h : ep ≠ c.endpoint_type) : (s.remove c).mapOf ep = s.mapOf ep := by
  cases hep : c.endpoint_type <;> cases ep <;> rw [hep] at h
  · exact absurd rfl h
  · exact Subscriptions.remove_user_eq s c hep
  · exact Subscriptions.remove_public_eq s c hep
  · exact absurd rfl h


/-- Concrete ticker channel on BTC-USD used in examples. -/
def tickerBTC : Channel := Channel.Ticker ["BTC-USD"]

/-- Concrete ticker channel on ETH-USD used in examples. -/
def tickerETH : Channel := Channel.Ticker ["ETH-USD"]

/-! ### Claims about the subscription registry -/

/-- Claim C2, counterexample: `Subscriptions::add` is not idempotent.
Adding `Ticker {BTC-USD}` twice to the empty registry does not yield the
same registry state as adding it once: `extend` appends, so the entry's id
list becomes `[BTC-USD, BTC-USD]` instead of `[BTC-USD]`. -/
theorem subscriptions_add_not_idempotent :
    Subscriptions.add (Subscriptions.add Subscriptions.new tickerBTC) tickerBTC
      ≠ Subscriptions.add Subscriptions.new tickerBTC := by
  intro h
  have h2 := congrArg (fun s => s.public ChannelName.Ticker) h
  simp [Subscriptions.add, Subscriptions.new, mapUpdate, tickerBTC,
        Channel.product_ids, Channel.endpoint_type, ChannelName.ofChannel] at h2

/-- Claim C2, amended: registry `add` appends (does not union): for every
channel, `add` appends the channel's product ids onto the entry keyed by
`(channel name, endpoint)`, creating the entry (from the empty list) if
absent, and touches no other entry and not the other endpoint's map;
adding the same channel twice therefore duplicates its product ids.
`add(Ticker{BTC-USD})` followed by `add(Ticker{ETH-USD})` still yields
exactly one `Ticker` entry whose product-id list is `[BTC-USD, ETH-USD]`
(as a set, `{BTC-USD, ETH-USD}`). -/
theorem subscriptions_add_appends :
    (∀ (s : Subscriptions) (c : Channel) (k : ChannelName),
        (s.add c).mapOf c.endpoint_type k =
          if k = ChannelName.ofChannel c then
            some ((s.lookupOf c).getD [] ++ c.product_ids)
          else s.mapOf c.endpoint_type k)
    ∧ (∀ (s : Subscriptions) (c : Channel) (ep : EndpointType),
        ep = c.endpoint_type ∨ (s.add c).mapOf ep = s.mapOf ep)
    ∧ Subscriptions.add (Subscriptions.add Subscriptions.new tickerBTC) tickerETH
        = { public := fun k => if k = ChannelName.Ticker then some ["BTC-USD", "ETH-USD"] else none,
            user := fun _ => none } := by
  refine ⟨fun s c k => Subscriptions.add_mapOf s c k, fun s c ep => ?_, ?_⟩
  · by_cases h : ep = c.endpoint_type
    · exact Or.inl h
    · exact Or.inr (Subscriptions.add_mapOf_other s c ep h)
  · refine Subscriptions.eq_of_maps _ _ (funext fun k => ?_) (funext fun k => ?_)
    · cases k <;> rfl
    · rfl

/-- Claim C3: registry `remove` subtracts the channel's product ids from
the matching `(name, endpoint)` entry — as sets: an id survives iff it was
present and is not among the channel's ids (first conjunct) — deletes the
entry exactly when no id survives (second conjunct), in particular deletes
an unscoped channel's (necessarily empty) entry outright (third conjunct),
leaves the registry completely unchanged when there is no matching entry
(fourth conjunct), and touches no other entry and not the other endpoint's
map (last two conjuncts). -/
theorem subscriptions_remove_spec (s : Subscriptions) (c : Channel) :
    (∀ x : String, x ∈ ((s.remove c).lookupOf c).getD [] ↔
        (x ∈ (s.lookupOf c).getD [] ∧ c.product_ids.contains x = false))
    ∧ ((s.remove c).lookupOf c = none ↔
        ∀ x ∈ (s.lookupOf c).getD [], c.product_ids.contains x = true)
    ∧ (c.product_ids = [] → s.lookupOf c = some [] → (s.remove c).lookupOf c = none)
    ∧ (s.lookupOf c = none → s.remove c = s)
    ∧ (∀ k : ChannelName, k = ChannelName.ofChannel c ∨
        (s.remove c).mapOf c.endpoint_type k = s.mapOf c.endpoint_type k)
    ∧ (∀ ep : EndpointType, ep = c.endpoint_type ∨ (s.remove c).mapOf ep = s.mapOf ep) := by
  have hmain := Subscriptions.remove_mapOf s c (ChannelName.ofChannel c)
  rw [if_pos rfl] at hmain
  refine ⟨?_, ?_, ?_, ?_, ?_, ?_⟩
  · intro x
    show x ∈ ((s.remove c).mapOf c.endpoint_type (ChannelName.ofChannel c)).getD [] ↔ _
    rw [hmain]
    cases hl : s.mapOf c.endpoint_type (ChannelName.ofChannel c) with
    | none => simp [Subscriptions.lookupOf, hl]
    | some ids =>
        simp only [hl, Subscriptions.lookupOf, Option.getD_some]
        split <;> rename_i hkeep
        · simp only [List.isEmpty_iff] at hkeep
          simp only [Option.getD_none, List.not_mem_nil, false_iff]
          rintro ⟨hx, hcx⟩
          have hmem : x ∈ ids.filter (fun id => !(c.product_ids.contains id)) := by
            rw [List.mem_filter]; exact ⟨hx, by rw [hcx]; rfl⟩
          rw [hkeep] at hmem
          simp at hmem
        · simp [List.mem_filter]
  · show (s.remove c).mapOf c.endpoint_type (ChannelName.ofChannel c) = none ↔ _
    rw [hmain]
    cases hl : s.mapOf c.endpoint_type (ChannelName.ofChannel c) with
    | none => simp [Subscriptions.lookupOf, hl]
    | some ids =>
        simp only [hl, Subscriptions.lookupOf, Option.getD_some]
        split <;> rename_i hkeep
        · simp only [List.isEmpty_iff, List.filter_eq_nil_iff] at hkeep
          constructor
          · intro _ x hx
            simpa using hkeep x hx
          · intro _; trivial
        · constructor
          · intro h; exact absurd h (by simp)
          · intro hall
            exfalso
            apply hkeep
            simp only [List.isEmpty_iff, List.filter_eq_nil_iff]
            intro x hx
            simpa using hall x hx
  · intro hpids hl
    show (s.remove c).mapOf c.endpoint_type (ChannelName.ofChannel c) = none
    rw [hmain]
    simp only [Subscriptions.lookupOf] at hl
    simp [hl, hpids]
  · intro hl
    simp only [Subscriptions.lookupOf] at hl
    cases hep : c.endpoint_type <;> rw [hep] at hl <;>
      simp only [Subscriptions.mapOf] at hl <;>
      simp [Subscriptions.remove, hep, hl]
  · intro k
    by_cases hk : k = ChannelName.ofChannel c
    · exact Or.inl hk
    · refine Or.inr ?_
      rw [Subscriptions.remove_mapOf s c k, if_neg hk]
  · intro ep
    by_cases h : ep = c.endpoint_type
    · exact Or.inl h
    · exact Or.inr (Subscriptions.remove_mapOf_other s c ep h)

/-- Witness for C3: concrete instances of `subscriptions_remove_spec` with
all hypotheses discharged — removing from the empty registry is a no-op,
removing `Heartbeats` right after adding it deletes its entry outright,
and after `add(Ticker{BTC-USD}); add(Ticker{ETH-USD})` the membership
characterization holds at `ETH-USD`. -/
theorem subscriptions_remove_spec_witness :
    (Subscriptions.new.remove tickerBTC = Subscriptions.new)
    ∧ ((Subscriptions.add Subscriptions.new Channel.Heartbeats).remove
        Channel.Heartbeats).lookupOf Channel.Heartbeats = none
    ∧ ("ETH-USD" ∈ (((Subscriptions.add (Subscriptions.add Subscriptions.new tickerBTC)
          tickerETH).remove tickerBTC).lookupOf tickerBTC).getD [] ↔
        ("ETH-USD" ∈ ((Subscriptions.add (Subscriptions.add Subscriptions.new tickerBTC)
            tickerETH).lookupOf tickerBTC).getD []
          ∧ tickerBTC.product_ids.contains "ETH-USD" = false)) :=
  ⟨(subscriptions_remove_spec Subscriptions.new tickerBTC).2.2.2.1 rfl,
   (subscriptions_remove_spec (Subscriptions.add Subscriptions.new Channel.Heartbeats)
      Channel.Heartbeats).2.2.1 rfl rfl,
   (subscriptions_remove_spec (Subscriptions.add (Subscriptions.add Subscriptions.new tickerBTC)
      tickerETH) tickerBTC).1 "ETH-USD"⟩

/-! ### Claims about the subscribe/unsubscribe flow -/

/-- A failed `subscribe_one` leaves the client state untouched. -/
theorem subscribe_one_error_state (cfg : ClientCfg) (env : Env) (st : ClientState)
    (ch : Channel) (e : Error) (h : (subscribe_one cfg env st ch).1 = .error e) :
    (subscribe_one cfg env st ch).2 = st := by
  by_cases hg : (ch.requires_auth && cfg.credentials.isNone) = true
  · simp [subscribe_one, hg]
  · cases hb : build_subscription_message cfg env ch "subscribe" with
    | error e2 => simp [subscribe_one, hg, hb]
    | ok msg =>
        cases hs : send_message st ch.endpoint_type msg env with
        | error e3 => simp [subscribe_one, hg, hb, hs]
        | ok st2 => simp [subscribe_one, hg, hb, hs] at h

/-- A failed `unsubscribe_one` leaves the client state untouched. -/
theorem unsubscribe_one_error_state (cfg : ClientCfg) (env : Env) (st : ClientState)
    (ch : Channel) (e : Error) (h : (unsubscribe_one cfg env st ch).1 = .error e) :
    (unsubscribe_one cfg env st ch).2 = st := by
  cases hb : build_subscription_message cfg env ch "unsubscribe" with
  | error e2 => simp [unsubscribe_one, hb]
  | ok msg =>
      cases hs : send_message st ch.endpoint_type msg env with
      | error e3 => simp [unsubscribe_one, hb, hs]
      | ok st2 => simp [unsubscribe_one, hb, hs] at h

/-- Claim C1: subscribing to an auth-requiring channel on a client built
without credentials fails with the auth-required error and leaves the
client state — both sinks (so no control frame was sent, whatever the
environment) and the subscription registry — exactly as it was. -/
theorem subscribe_one_auth_required_guard (cfg : ClientCfg) (env : Env) (st : ClientState)
    (ch : Channel) (hcred : cfg.credentials = none) (hauth : ch.requires_auth = true) :
    subscribe_one cfg env st ch = (.error (.WebSocket (authRequiredMsg ch.name)), st) := by
  simp [subscribe_one, hcred, hauth]

/-- Witness for C1: a client built with no credentials, subscribing to the
`User` channel from the freshly built state. -/
theorem subscribe_one_auth_required_guard_witness :
    subscribe_one WebSocketClientBuilder.new.build
        { now := .ok 1700000000, jwt := .error "unused", send := .ok () }
        ClientState.initial Channel.User
      = (.error (.WebSocket (authRequiredMsg Channel.User.name)), ClientState.initial) :=
  subscribe_one_auth_required_guard WebSocketClientBuilder.new.build
    { now := .ok 1700000000, jwt := .error "unused", send := .ok () }
    ClientState.initial Channel.User rfl rfl

/-- Claim C4: subscribe and unsubscribe mutate the client state only after
the control frame is accepted — a call whose build or send step failed
returns the error with the state (registry included) exactly as before. -/
theorem registry_update_only_after_send (cfg : ClientCfg) (env env2 : Env)
    (st st2 : ClientState) (ch ch2 : Channel) (e e2 : Error)
    (h1 : (subscribe_one cfg env st ch).1 = .error e)
    (h2 : (unsubscribe_one cfg env2 st2 ch2).1 = .error e2) :
    (subscribe_one cfg env st ch).2 = st ∧ (unsubscribe_one cfg env2 st2 ch2).2 = st2 :=
  ⟨subscribe_one_error_state cfg env st ch e h1,
   unsubscribe_one_error_state cfg env2 st2 ch2 e2 h2⟩

/-- Witness for C4: with no sink connected, subscribing to and
unsubscribing from `Ticker{BTC-USD}` both fail (send is impossible) and
leave the initial state unchanged. -/
theorem registry_update_only_after_send_witness :
    (subscribe_one WebSocketClientBuilder.new.build
        { now := .ok 1700000000, jwt := .ok "tok", send := .ok () }
        ClientState.initial tickerBTC).2 = ClientState.initial
    ∧ (unsubscribe_one WebSocketClientBuilder.new.build
        { now := .ok 1700000000, jwt := .ok "tok", send := .ok () }
        ClientState.initial tickerBTC).2 = ClientState.initial :=
  registry_update_only_after_send WebSocketClientBuilder.new.build
    { now := .ok 1700000000, jwt := .ok "tok", send := .ok () }
    { now := .ok 1700000000, jwt := .ok "tok", send := .ok () }
    ClientState.initial ClientState.initial tickerBTC tickerBTC
    (.WebSocket (notConnectedMsg .Public)) (.WebSocket (notConnectedMsg .Public))
    rfl rfl

/-- Claim C8: shape of every control message: when the channel requires
authentication the message carries the JWT minted from this very call's
environment (fresh per message, never cached) and no timestamp; otherwise
it carries the wall-clock timestamp and no JWT. -/
theorem control_message_auth_fields (cfg : ClientCfg) (env : Env) (ch : Channel)
    (action : String) (creds : Credentials) (tok : String) (t : Nat)
    (hc : cfg.credentials = some creds) (hj : env.jwt = .ok tok) (hn : env.now = .ok t) :
    build_subscription_message cfg env ch action =
      .ok { type := action, product_ids := ch.product_ids,
            channel := ChannelName.ofChannel ch,
            jwt := if ch.requires_auth then some tok else none,
            timestamp := if ch.requires_auth then none else some (toString t) } := by
  by_cases h : ch.requires_auth = true
  · simp [build_subscription_message, generate_jwt, hc, hj, h]
  · simp only [Bool.not_eq_true] at h
    simp [build_subscription_message, h, hn]

/-- Witness for C8: concrete builds for the auth-requiring `User` channel
(JWT present, no timestamp) and for `Ticker{BTC-USD}` (timestamp present,
no JWT) under credentials and a definite environment. -/
theorem control_message_auth_fields_witness :
    build_subscription_message
        { credentials := some { api_key := "k", private_key := "p" },
          auto_reconnect := false, max_retries := 0 }
        { now := .ok 1700000000, jwt := .ok "tok0", send := .ok () }
        Channel.User "subscribe"
      = .ok { type := "subscribe", product_ids := [], channel := ChannelName.User,
              jwt := some "tok0", timestamp := none }
    ∧ build_subscription_message
        { credentials := some { api_key := "k", private_key := "p" },
          auto_reconnect := false, max_retries := 0 }
        { now := .ok 1700000000, jwt := .ok "tok0", send := .ok () }
        tickerBTC "subscribe"
      = .ok { type := "subscribe", product_ids := ["BTC-USD"], channel := ChannelName.Ticker,
              jwt := none, timestamp := some "1700000000" } := by
  constructor
  · exact control_message_auth_fields _ _ Channel.User "subscribe"
      { api_key := "k", private_key := "p" } "tok0" 1700000000 rfl rfl rfl
  · have h := control_message_auth_fields
      { credentials := some { api_key := "k", private_key := "p" },
        auto_reconnect := false, max_retries := 0 }
      { now := .ok 1700000000, jwt := .ok "tok0", send := .ok () }
      tickerBTC "subscribe"
      { api_key := "k", private_key := "p" } "tok0" 1700000000 rfl rfl rfl
    simpa [tickerBTC] using h

/-! ### Claims about the reconnect loop -/

/-- Doubling a capped power-of-two delay and recapping advances the
exponent: this is the backoff invariant of the reconnect loop. -/
theorem minPow_step (j : Nat) : min (min (2 ^ j) 60 * 2) 60 = min (2 ^ (j + 1)) 60 := by
  rcases le_or_lt (2 ^ j) 60 with h | h
  · rw [min_eq_left h, pow_succ]
  · have h2 : (60 : Nat) ≤ 2 ^ j := h.le
    rw [min_eq_right h2]
    have h3 : (60 : Nat) ≤ 2 ^ (j + 1) :=
      le_trans h2 (Nat.pow_le_pow_right (by norm_num) (Nat.le_succ j))
    rw [min_eq_right h3]
    exact min_eq_right (by norm_num)

/-- The reconnect loop sleeps at most once per unit of fuel, so the
number of attempts is bounded by the remaining retry budget. -/
theorem reconnectLoop_length_le (attempt : Nat → Bool) :
    ∀ fuel k d, (reconnectLoop attempt fuel k d).2.length ≤ fuel := by
  intro fuel
  induction fuel with
  | zero => intro k d; simp [reconnectLoop]
  | succ n ih =>
      intro k d
      by_cases h : attempt k = true
      · simp [reconnectLoop, h]
      · have := ih (k + 1) (min (d * 2) 60)
        simp only [reconnectLoop, h]
        simp only [Bool.false_eq_true, if_false, List.length_cons]
        omega

/-- When every attempt fails, the reconnect loop spends its whole fuel and
the successive delays are exactly the capped powers of two continuing from
the starting exponent. -/
theorem reconnectLoop_all_fail (attempt : Nat → Bool) (hall : ∀ m, attempt m = false) :
    ∀ fuel k j, reconnectLoop attempt fuel k (min (2 ^ j) 60) =
      (false, (List.range fuel).map (fun i => min (2 ^ (j + i)) 60)) := by
  intro fuel
  induction fuel with
  | zero => intro k j; simp [reconnectLoop]
  | succ n ih =>
      intro k j
      have h := hall k
      simp only [reconnectLoop, h, Bool.false_eq_true, if_false]
      rw [minPow_step j, ih (k + 1) (j + 1)]
      simp only [List.range_succ_eq_map, List.map_cons, List.map_map]
      have hf : (fun i => min (2 ^ (j + 1 + i)) 60)
          = ((fun i => min (2 ^ (j + i)) 60) ∘ Nat.succ) := by
        funext i
        simp only [Function.comp_apply]
        rw [show j + 1 + i = j + (i + 1) from by omega]
      rw [hf]
      simp

/-- Claim C5: with auto-reconnect enabled and every attempt failing, the
reconnect loop sleeps exactly `min(2^(k-1), 60)` seconds before attempt
`k` for `k = 1 .. max_retries` (so `1s, 2s, 4s, 8s` for the first four),
makes exactly `max_retries` attempts and then returns the fatal
retry-exhausted error; moreover, for any attempt oracle at all, the number
of attempts (one per slept delay) never exceeds `max_retries`. -/
theorem reconnect_backoff_bounds (cfg : ClientCfg) (attempt : Nat → Bool)
    (resub : Except Error Unit) (hauto : cfg.auto_reconnect = true)
    (hall : ∀ k, attempt k = false) :
    reconnect cfg attempt resub =
      (.error (.WebSocket (reconnectExhaustedMsg cfg.max_retries)),
       (List.range cfg.max_retries).map (fun i => min (2 ^ i) 60))
    ∧ ∀ (att : Nat → Bool) (r2 : Except Error Unit),
        ((reconnect cfg att r2).2).length ≤ cfg.max_retries := by
  constructor
  · have h2 := reconnectLoop_all_fail attempt hall cfg.max_retries 0 0
    norm_num at h2
    simp [reconnect, hauto, h2]
  · intro att r2
    simp only [reconnect, hauto, Bool.not_true, Bool.false_eq_true, if_false]
    split <;> simpa using reconnectLoop_length_le att cfg.max_retries 0 1

/-- Witness for C5: a budget of five retries with every attempt failing
sleeps `1, 2, 4, 8, 16` seconds and returns the fatal error; the length
bound holds for arbitrary oracles on the same configuration. -/
theorem reconnect_backoff_bounds_witness :
    reconnect { credentials := none, auto_reconnect := true, max_retries := 5 }
        (fun _ => false) (.ok ())
      = (.error (.WebSocket (reconnectExhaustedMsg 5)), [1, 2, 4, 8, 16])
    ∧ ∀ (att : Nat → Bool) (r2 : Except Error Unit),
        ((reconnect { credentials := none, auto_reconnect := true, max_retries := 5 }
            att r2).2).length ≤ 5 := by
  have h := reconnect_backoff_bounds
    { credentials := none, auto_reconnect := true, max_retries := 5 }
    (fun _ => false) (.ok ()) rfl (fun _ => rfl)
  refine ⟨?_, h.2⟩
  have h1 := h.1
  simpa [List.range_succ] using h1

/-! ### Claims about batch subscribe/unsubscribe -/

/-- A successful `send_message` appends exactly one frame to one sink and
does not touch the registry. -/
theorem send_message_ok_effects (st : ClientState) (ep : EndpointType)
    (msg : SubscriptionMessage) (env : Env) (st2 : ClientState)
    (h : send_message st ep msg env = .ok st2) :
    st2.subscriptions = st.subscriptions ∧ sentCount st2 = sentCount st + 1 := by
  cases ep
  · cases hp : st.public_sink with
    | none => simp [send_message, hp] at h
    | some sent =>
        cases he : env.send with
        | error e => simp [send_message, hp, he] at h
        | ok u =>
            simp only [send_message, hp, he] at h
            cases h
            constructor
            · rfl
            · simp [sentCount, hp, List.length_append]
              omega
  · cases hp : st.user_sink with
    | none => simp [send_message, hp] at h
    | some sent =>
        cases he : env.send with
        | error e => simp [send_message, hp, he] at h
        | ok u =>
            simp only [send_message, hp, he] at h
            cases h
            constructor
            · rfl
            · simp [sentCount, hp, List.length_append]
              omega

/-- A successful `subscribe_one` records the channel in the registry (via
`add`) and has sent exactly one control frame. -/
theorem subscribe_one_ok_effects (cfg : ClientCfg) (env : Env) (st : ClientState)
    (ch : Channel) (st2 : ClientState) (u : Unit)
    (h : subscribe_one cfg env st ch = (.ok u, st2)) :
    st2.subscriptions = st.subscriptions.add ch ∧ sentCount st2 = sentCount st + 1 := by
  by_cases hg : (ch.requires_auth && cfg.credentials.isNone) = true
  · simp [subscribe_one, hg] at h
  · cases hb : build_subscription_message cfg env ch "subscribe" with
    | error e => simp [subscribe_one, hg, hb] at h
    | ok msg =>
        cases hs : send_message st ch.endpoint_type msg env with
        | error e => simp [subscribe_one, hg, hb, hs] at h
        | ok stm =>
            have heff := send_message_ok_effects st ch.endpoint_type msg env stm hs
            simp only [subscribe_one, hg, hb, hs, Bool.false_eq_true, if_false,
              Prod.mk.injEq] at h
            rw [← h.2]
            exact ⟨by rw [heff.1], by simpa [sentCount] using heff.2⟩

/-- Characterization of the `for`-loop over channels: there is a prefix
that succeeded entirely, and either it is the whole list (overall
success), or the very next channel's step failed, the loop returned that
error, and the final state is the state after the successful prefix (the
failing step and all later channels contributed nothing). -/
theorem runBatch_first_fail
    (step : Nat → ClientState → Channel → Except Error Unit × ClientState)
    (hstep : ∀ k st c e, (step k st c).1 = .error e → (step k st c).2 = st) :
    ∀ (chans : List Channel) (k : Nat) (st : ClientState),
      ∃ pre rest stp,
        chans = pre ++ rest
        ∧ runBatch step k st pre = (.ok (), stp)
        ∧ ((rest = [] ∧ runBatch step k st chans = (.ok (), stp))
           ∨ (∃ c cs e, rest = c :: cs ∧ (step (k + pre.length) stp c).1 = .error e
               ∧ runBatch step k st chans = (.error e, stp))) := by
  intro chans
  induction chans with
  | nil => intro k st; exact ⟨[], [], st, rfl, rfl, Or.inl ⟨rfl, rfl⟩⟩
  | cons c cs ih =>
      intro k st
      cases hs : step k st c with
      | mk r st2 =>
          cases r with
          | ok u =>
              cases u
              obtain ⟨pre, rest, stp, hsplit, hpre, hdisj⟩ := ih (k + 1) st2
              refine ⟨c :: pre, rest, stp, by rw [hsplit]; rfl, ?_, ?_⟩
              · show runBatch step k st (c :: pre) = (.ok (), stp)
                simp only [runBatch, hs]
                exact hpre
              · cases hdisj with
                | inl hl =>
                    refine Or.inl ⟨hl.1, ?_⟩
                    show runBatch step k st (c :: cs) = (.ok (), stp)
                    simp only [runBatch, hs]
                    exact hl.2
                | inr hr =>
                    obtain ⟨c2, cs2, e, hrest, hfail, hrun⟩ := hr
                    refine Or.inr ⟨c2, cs2, e, hrest, ?_, ?_⟩
                    · have hidx : k + (c :: pre).length = (k + 1) + pre.length := by
                        simp [List.length_cons]
                        omega
                      rw [hidx]
                      exact hfail
                    · show runBatch step k st (c :: cs) = (.error e, stp)
                      simp only [runBatch, hs]
                      exact hrun
          | error e =>
              have hst2 : st2 = st := by
                have h := hstep k st c e (by rw [hs])
                rw [hs] at h
                exact h
              refine ⟨[], c :: cs, st, rfl, rfl, Or.inr ⟨c, cs, e, rfl, ?_, ?_⟩⟩
              · simp only [List.length_nil, Nat.add_zero]
                rw [hs]
              · show runBatch step k st (c :: cs) = (.error e, st)
                simp only [runBatch, hs]
                rw [hst2]

/-- Claim C9: `subscribe` (and likewise `unsubscribe`) over a list of
channels processes the list in order and returns at the first failing
channel: some prefix succeeded entirely — each of its channels was sent
(one frame each) and recorded in the registry, per the last conjunct —
the call's final state is exactly the state after that prefix, and either
the prefix is the whole list (success) or the very next channel failed
and nothing after it was attempted: partial effect, no rollback. -/
theorem batch_first_failure (cfg : ClientCfg) (envs : Nat → Env) (st : ClientState)
    (chans : List Channel) :
    (∃ pre rest stp,
        chans = pre ++ rest
        ∧ subscribe cfg envs st pre = (.ok (), stp)
        ∧ ((rest = [] ∧ subscribe cfg envs st chans = (.ok (), stp))
           ∨ (∃ c cs e, rest = c :: cs
               ∧ (subscribe_one cfg (envs pre.length) stp c).1 = .error e
               ∧ subscribe cfg envs st chans = (.error e, stp))))
    ∧ (∃ pre rest stp,
        chans = pre ++ rest
        ∧ unsubscribe cfg envs st pre = (.ok (), stp)
        ∧ ((rest = [] ∧ unsubscribe cfg envs st chans = (.ok (), stp))
           ∨ (∃ c cs e, rest = c :: cs
               ∧ (unsubscribe_one cfg (envs pre.length) stp c).1 = .error e
               ∧ unsubscribe cfg envs st chans = (.error e, stp))))
    ∧ (∀ (env : Env) (s1 s2 : ClientState) (c : Channel) (u : Unit),
        subscribe_one cfg env s1 c = (.ok u, s2) →
          s2.subscriptions = s1.subscriptions.add c ∧ sentCount s2 = sentCount s1 + 1) := by
  refine ⟨?_, ?_, fun env s1 s2 c u h => subscribe_one_ok_effects cfg env s1 c s2 u h⟩
  · obtain ⟨pre, rest, stp, h1, h2, h3⟩ :=
      runBatch_first_fail (fun k s c => subscribe_one cfg (envs k) s c)
        (fun k s c e he => subscribe_one_error_state cfg (envs k) s c e he) chans 0 st
    simp only [Nat.zero_add] at h3
    exact ⟨pre, rest, stp, h1, h2, h3⟩
  · obtain ⟨pre, rest, stp, h1, h2, h3⟩ :=
      runBatch_first_fail (fun k s c => unsubscribe_one cfg (envs k) s c)
        (fun k s c e he => unsubscribe_one_error_state cfg (envs k) s c e he) chans 0 st
    simp only [Nat.zero_add] at h3
    exact ⟨pre, rest, stp, h1, h2, h3⟩

/-- Client state with the public socket connected and nothing sent yet. -/
def stateConnectedPublic : ClientState :=
  { public_sink := some [], user_sink := none, subscriptions := Subscriptions.new }

/-- Environment in which every ambient effect succeeds. -/
def envAllOk : Env :=
  { now := .ok 1700000000, jwt := .ok "tok", send := .ok () }

/-- Witness for C9: the recording conjunct of `batch_first_failure`
discharged on a concrete successful `subscribe_one` of `Ticker{BTC-USD}`
over a connected public sink. -/
theorem batch_first_failure_witness :
    ((subscribe_one WebSocketClientBuilder.new.build envAllOk stateConnectedPublic
        tickerBTC).2).subscriptions
      = stateConnectedPublic.subscriptions.add tickerBTC
    ∧ sentCount (subscribe_one WebSocketClientBuilder.new.build envAllOk
        stateConnectedPublic tickerBTC).2 = sentCount stateConnectedPublic + 1 :=
  (batch_first_failure WebSocketClientBuilder.new.build (fun _ => envAllOk)
      stateConnectedPublic [tickerBTC]).2.2 envAllOk stateConnectedPublic
    (subscribe_one WebSocketClientBuilder.new.build envAllOk stateConnectedPublic tickerBTC).2
    tickerBTC () rfl

/-! ### Claims about the multiplexed message stream -/

/-- If polling one side produced an item, that side's source survives. -/
theorem pollSide_item_some (decode : String → Except String Message) (st : List PollR)
    (it : Except Error Message) (h : (pollSide decode st).1 = some it) :
    ∃ l, (pollSide decode st).2 = some l := by
  cases st with
  | nil => simp [pollSide] at h
  | cons r rest =>
      cases r with
      | readyOk msg =>
          cases hp : process_ws_message decode msg with
          | some it2 => exact ⟨rest, by simp [pollSide, hp]⟩
          | none => simp [pollSide, hp] at h
      | readyErr e => exact ⟨rest, rfl⟩
      | readyNone => simp [pollSide] at h
      | pending => simp [pollSide] at h

/-- Polling the user side never changes the public source. -/
theorem pollUser_public (decode : String → Except String Message) (s : MessageStream) :
    (pollUser decode s).2.public_stream = s.public_stream := by
  cases hu : s.user_stream <;> simp [pollUser, hu]

/-- Polling the public side never changes the user source. -/
theorem pollPublic_user (decode : String → Except String Message) (s : MessageStream) :
    (pollPublic decode s).2.user_stream = s.user_stream := by
  cases hp : s.public_stream <;> simp [pollPublic, hp]

/-- If the public phase produced an item, the public source survives. -/
theorem pollPublic_item_some (decode : String → Except String Message) (s : MessageStream)
    (it : Except Error Message) (h : (pollPublic decode s).1 = some it) :
    ∃ l, (pollPublic decode s).2.public_stream = some l := by
  cases hp : s.public_stream with
  | none => simp [pollPublic, hp] at h
  | some st =>
      have h2 : (pollSide decode st).1 = some it := by simpa [pollPublic, hp] using h
      obtain ⟨l, hl⟩ := pollSide_item_some decode st it h2
      exact ⟨l, by simp [pollPublic, hp, hl]⟩

/-- If the user phase produced an item, the user source survives. -/
theorem pollUser_item_some (decode : String → Except String Message) (s : MessageStream)
    (it : Except Error Message) (h : (pollUser decode s).1 = some it) :
    ∃ l, (pollUser decode s).2.user_stream = some l := by
  cases hu : s.user_stream with
  | none => simp [pollUser, hu] at h
  | some st =>
      have h2 : (pollSide decode st).1 = some it := by simpa [pollUser, hu] using h
      obtain ⟨l, hl⟩ := pollSide_item_some decode st it h2
      exact ⟨l, by simp [pollUser, hu, hl]⟩

/-- Claim C6: a malformed (undecodable) text frame is yielded as one error
item without terminating the stream — both sources survive it — and the
next well-formed frame, whether it arrives on the same (public) source or
on the user source, is still decoded and delivered. -/
theorem malformed_frame_nonterminating (decode : String → Except String Message)
    (bad good e : String) (m : Message) (rest : List PollR) (u : Option (List PollR))
    (hbad : decode bad = .error e) (hgood : decode good = .ok m) :
    MessageStream.poll_next decode
        { public_stream := some (.readyOk (.text bad) :: .readyOk (.text good) :: rest),
          user_stream := u }
      = (.item (.error (.WebSocket (parseFailedMsg e bad))),
         { public_stream := some (.readyOk (.text good) :: rest), user_stream := u })
    ∧ MessageStream.poll_next decode
        { public_stream := some (.readyOk (.text good) :: rest), user_stream := u }
      = (.item (.ok m), { public_stream := some rest, user_stream := u })
    ∧ MessageStream.poll_next decode
        { public_stream := some [], user_stream := some (.readyOk (.text good) :: rest) }
      = (.item (.ok m), { public_stream := some [], user_stream := some rest }) := by
  refine ⟨?_, ?_, ?_⟩ <;>
    simp [MessageStream.poll_next, pollPublic, pollUser, pollSide,
      process_ws_message, hbad, hgood]

/-- Sample inbound message used in concrete stream examples. -/
def sampleMessage : Message :=
  { channel := .Ticker, client_id := "cid", timestamp := "ts",
    sequence_num := 1, events := .Ticker [] }

/-- Sample decoder: the payload `"g"` decodes to `sampleMessage`, anything
else is a decode failure. -/
def decodeSample : String → Except String Message :=
  fun payload => if payload = "g" then .ok sampleMessage else .error "expected value"

/-- Witness for C6: with the sample decoder, a malformed frame `"b"`
yields one error item and the following well-formed frame `"g"` is
delivered, on the same source or on the user source. -/
theorem malformed_frame_nonterminating_witness :
    MessageStream.poll_next decodeSample
        { public_stream := some [.readyOk (.text "b"), .readyOk (.text "g")],
          user_stream := none }
      = (.item (.error (.WebSocket (parseFailedMsg "expected value" "b"))),
         { public_stream := some [.readyOk (.text "g")], user_stream := none })
    ∧ MessageStream.poll_next decodeSample
        { public_stream := some [.readyOk (.text "g")], user_stream := none }
      = (.item (.ok sampleMessage), { public_stream := some [], user_stream := none })
    ∧ MessageStream.poll_next decodeSample
        { public_stream := some [], user_stream := some [.readyOk (.text "g")] }
      = (.item (.ok sampleMessage),
         { public_stream := some [], user_stream := some [] }) :=
  malformed_frame_nonterminating decodeSample "b" "g" "expected value" sampleMessage []
    none (by decide) (by decide)

/-- Claim C7: `poll_next` signals end-of-stream exactly when, after this
poll, both endpoint sources are gone; a source whose underlying stream
ends is removed from the poll set (shown for the public source whenever
its poll observes the end, and for the user source when the public one is
already gone, the circumstance in which the user poll is reached with an
ended stream). -/
theorem stream_ends_iff_both_sources_gone (decode : String → Except String Message)
    (s : MessageStream) :
    ((MessageStream.poll_next decode s).1 = .done ↔
      ((MessageStream.poll_next decode s).2.public_stream = none
        ∧ (MessageStream.poll_next decode s).2.user_stream = none))
    ∧ (∀ rest, s.public_stream = some (.readyNone :: rest) →
        (MessageStream.poll_next decode s).2.public_stream = none)
    ∧ (s.public_stream = none → ∀ rest, s.user_stream = some (.readyNone :: rest) →
        (MessageStream.poll_next decode s).2.user_stream = none) := by
  refine ⟨?_, ?_, ?_⟩
  · cases hpp : pollPublic decode s with
    | mk it1 s1 =>
        cases it1 with
        | some it =>
            have hres : MessageStream.poll_next decode s = (.item it, s1) := by
              simp [MessageStream.poll_next, hpp]
            obtain ⟨l, hl⟩ := pollPublic_item_some decode s it (by rw [hpp])
            rw [hpp] at hl
            rw [hres]
            constructor
            · intro h; cases h
            · rintro ⟨h1, _⟩
              rw [hl] at h1
              cases h1
        | none =>
            cases hpu : pollUser decode s1 with
            | mk it2 s2 =>
                cases it2 with
                | some it =>
                    have hres : MessageStream.poll_next decode s = (.item it, s2) := by
                      simp [MessageStream.poll_next, hpp, hpu]
                    obtain ⟨l, hl⟩ := pollUser_item_some decode s1 it (by rw [hpu])
                    rw [hpu] at hl
                    rw [hres]
                    constructor
                    · intro h; cases h
                    · rintro ⟨_, h2⟩
                      rw [hl] at h2
                      cases h2
                | none =>
                    by_cases hc : (s2.public_stream.isNone && s2.user_stream.isNone) = true
                    · have hres : MessageStream.poll_next decode s = (.done, s2) := by
                        simp [MessageStream.poll_next, hpp, hpu, hc]
                      rw [hres]
                      simp only [Bool.and_eq_true, Option.isNone_iff_eq_none] at hc
                      exact iff_of_true rfl hc
                    · have hres : MessageStream.poll_next decode s = (.pending, s2) := by
                        simp [MessageStream.poll_next, hpp, hpu, hc]
                      rw [hres]
                      simp only [Bool.and_eq_true, Option.isNone_iff_eq_none] at hc
                      constructor
                      · intro h; cases h
                      · intro h; exact absurd h hc
  · intro rest hpub
    have hpp : pollPublic decode s = (none, { s with public_stream := none }) := by
      simp [pollPublic, hpub, pollSide]
    cases hpu : pollUser decode { s with public_stream := none } with
    | mk it2 s2 =>
        have hs2 : s2.public_stream = none := by
          have h := pollUser_public decode { s with public_stream := none }
          rw [hpu] at h
          exact h
        cases it2 with
        | some it =>
            have hres : MessageStream.poll_next decode s = (.item it, s2) := by
              simp [MessageStream.poll_next, hpp, hpu]
            rw [hres]
            exact hs2
        | none =>
            by_cases hc : (s2.public_stream.isNone && s2.user_stream.isNone) = true
            · have hres : MessageStream.poll_next decode s = (.done, s2) := by
                simp [MessageStream.poll_next, hpp, hpu, hc]
              rw [hres]
              exact hs2
            · have hres : MessageStream.poll_next decode s = (.pending, s2) := by
                simp [MessageStream.poll_next, hpp, hpu, hc]
              rw [hres]
              exact hs2
  · intro hpub rest huser
    have hpp : pollPublic decode s = (none, s) := by
      simp [pollPublic, hpub]
    have hpu : pollUser decode s = (none, { s with user_stream := none }) := by
      simp [pollUser, huser, pollSide]
    have hres : MessageStream.poll_next decode s
        = (.done, { s with user_stream := none }) := by
      simp [MessageStream.poll_next, hpp, hpu, hpub]
    rw [hres]

/-- Witness for C7: the end-of-stream characterization on a stream with
both sources gone, removal of an ended public source, and removal of an
ended user source once the public one is gone. -/
theorem stream_ends_iff_both_sources_gone_witness :
    ((MessageStream.poll_next decodeSample
        { public_stream := none, user_stream := none }).1 = .done ↔
      ((MessageStream.poll_next decodeSample
          { public_stream := none, user_stream := none }).2.public_stream = none
        ∧ (MessageStream.poll_next decodeSample
            { public_stream := none, user_stream := none }).2.user_stream = none))
    ∧ (MessageStream.poll_next decodeSample
        { public_stream := some [.readyNone], user_stream := none }).2.public_stream = none
    ∧ (MessageStream.poll_next decodeSample
        { public_stream := none, user_stream := some [.readyNone] }).2.user_stream = none :=
  ⟨(stream_ends_iff_both_sources_gone decodeSample
      { public_stream := none, user_stream := none }).1,
   (stream_ends_iff_both_sources_gone decodeSample
      { public_stream := some [.readyNone], user_stream := none }).2.1 [] rfl,
   (stream_ends_iff_both_sources_gone decodeSample
      { public_stream := none, user_stream := some [.readyNone] }).2.2 rfl [] rfl⟩

/-- Claim C10: inbound frames produce stream items only for `Text` and
`Close` frames: a `Close` frame is yielded as an error item (not a silent
end of the source), `ping`, `pong`, `binary` and raw `frame` messages
produce no item at all, and in particular a poll that consumes a ping
frame yields nothing for it. -/
theorem frame_item_classification (decode : String → Except String Message) :
    (∀ f, process_ws_message decode (.close f)
        = some (.error (.WebSocket (closedMsg f))))
    ∧ (∀ payload, process_ws_message decode (.binary payload) = none)
    ∧ (∀ payload, process_ws_message decode (.ping payload) = none)
    ∧ (∀ payload, process_ws_message decode (.pong payload) = none)
    ∧ process_ws_message decode .frame = none
    ∧ (∀ msg r, process_ws_message decode msg = some r →
        (∃ payload, msg = .text payload) ∨ (∃ f, msg = .close f))
    ∧ (∀ payload, MessageStream.poll_next decode
          { public_stream := some [.readyOk (.ping payload)], user_stream := none }
        = (.pending, { public_stream := some [], user_stream := none })) := by
  refine ⟨fun f => rfl, fun payload => rfl, fun payload => rfl, fun payload => rfl,
    rfl, ?_, ?_⟩
  · intro msg r h
    cases msg with
    | text payload => exact Or.inl ⟨payload, rfl⟩
    | close f => exact Or.inr ⟨f, rfl⟩
    | binary payload => simp [process_ws_message] at h
    | ping payload => simp [process_ws_message] at h
    | pong payload => simp [process_ws_message] at h
    | frame => simp [process_ws_message] at h
  · intro payload
    rfl

/-- Witness for C10: the only-Text-or-Close conjunct discharged on a
concrete decodable text frame, plus a concrete `Close` frame yielding its
error item. -/
theorem frame_item_classification_witness :
    ((∃ payload, WsMessage.text "g" = .text payload)
      ∨ (∃ f, WsMessage.text "g" = .close f))
    ∧ process_ws_message decodeSample (.close none)
        = some (.error (.WebSocket (closedMsg none))) :=
  ⟨(frame_item_classification decodeSample).2.2.2.2.2.1 (.text "g") (.ok sampleMessage)
      (by decide),
   (frame_item_classification decodeSample).1 none⟩

end Coinbase
